import Mathlib

/-!
Verification of the typed-option core of `src/vowpalwabbit/config/option.h`.

The header defines:
  * `base_option` — the type-erased option descriptor (name, type hash,
    metadata flags, the `m_one_of_err` string);
  * `typed_option<T>` — the typed specialization holding an optional value,
    an optional default value and an enumerated-choice set, for the eight
    supported value types;
  * `typed_option_with_location<T>` — a typed option that additionally
    writes values supplied on the add-and-parse path into an external
    variable;
  * `typed_option_visitor` — one virtual no-op `visit` per supported type,
    double-dispatched through `typed_option<T>::accept`;
  * `operator==` over two same-typed options.

The embedding below is shallow: C++ `std::shared_ptr<T>`-based presence is
`Option T`, the ordered `std::set<T>` is a `List T` in its iteration order
(membership is all the code uses besides joining for the message), the
`THROW` macro is an `Except` error, and the external variable of a located
option is threaded explicitly through the state-changing operations.
-/

/-- The two failure kinds raised by `typed_option<T>`'s accessors: `value()`
throws when no value was supplied, `default_value()` throws when no default
was supplied (`THROW` in the C++ source). -/
inductive option_error where
  | missing_value
  | missing_default
deriving DecidableEq, Repr

/-- Model of C++ `float` values. The option code performs no arithmetic on
them: it only stores them and tests membership in the choice set, so an
opaque carrier with decidable equality is a faithful model. -/
def float_model : Type := Int

instance : DecidableEq float_model := inferInstanceAs (DecidableEq Int)

/-- Embedding of `typed_option<T>` from `option.h`, with the fields it
inherits from `base_option` inlined (C++ inheritance flattens the object the
same way). `m_value` and `m_default_value` are `std::shared_ptr<T>` in the
source, used purely as optionals; `m_one_of` is the `std::set<T>` in its
iteration order. -/
structure typed_option (T : Type) where
  m_name : String
  m_type_hash : Nat
  m_help : String
  m_short_name : String
  m_keep : Bool
  m_necessary : Bool
  m_allow_override : Bool
  m_hidden_from_help : Bool
  m_one_of_err : String
  m_value : Option T
  m_default_value : Option T
  m_one_of : List T

/-- The constructor `typed_option(const std::string& name)`: it forwards to
`base_option(name, typeid(T).hash_code())`; every other field keeps its
in-class initializer. The opaque RTTI hash is passed in as a number. -/
def typed_option.make (T : Type) (name : String) (type_hash : Nat) : typed_option T :=
  { m_name := name
    m_type_hash := type_hash
    m_help := ""
    m_short_name := ""
    m_keep := false
    m_necessary := false
    m_allow_override := false
    m_hidden_from_help := false
    m_one_of_err := ""
    m_value := none
    m_default_value := none
    m_one_of := [] }

/-- `value_supplied()`: true iff `m_value` holds a value. -/
def typed_option.value_supplied {T : Type} (o : typed_option T) : Bool :=
  o.m_value.isSome

/-- `default_value_supplied()`: true iff `m_default_value` holds a value. -/
def typed_option.default_value_supplied {T : Type} (o : typed_option T) : Bool :=
  o.m_default_value.isSome

/-- The getter `T value() const`: returns the stored value or throws
"typed_option does not contain value. use value_supplied to check if value
exists." -/
def typed_option.value {T : Type} (o : typed_option T) : Except option_error T :=
  match o.m_value with
  | some v => Except.ok v
  | none => Except.error option_error.missing_value

/-- The getter `T default_value() const`: returns the stored default or
throws "typed_option does not contain default value. use
default_value_supplied to check if default value exists." -/
def typed_option.default_value {T : Type} (o : typed_option T) : Except option_error T :=
  match o.m_default_value with
  | some v => Except.ok v
  | none => Except.error option_error.missing_default

/-- `set_default_value(const value_type& value)`. -/
def typed_option.set_default_value {T : Type} (o : typed_option T) (v : T) : typed_option T :=
  { o with m_default_value := some v }

/-- `set_one_of(const std::set<value_type>& one_of_set)`: replaces the
choice set and touches nothing else. -/
def typed_option.set_one_of {T : Type} (o : typed_option T) (s : List T) : typed_option T :=
  { o with m_one_of := s }

/-- The body of the formatted overloads of `invalid_choice_error`: the string
overload is `fmt::format("Error: '{}' is not a valid choice for option
--{}. Please select from {{{}}}", value, m_name, fmt::join(m_one_of, ", "))`
and the four integer overloads route through it with `std::to_string`;
`render` is how a single element is formatted. -/
def invalid_choice_error_fmt {T : Type} (render : T → String)
    (name : String) (one_of : List T) (v : T) : String :=
  "Error: '" ++ render v ++ "' is not a valid choice for option --" ++ name ++
    ". Please select from \x7b" ++ String.intercalate ", " (one_of.map render) ++ "\x7d"

/-- Per-type resolution of the overload set `invalid_choice_error` inside
`typed_option<T>`: the catch-all member template returns `""`, and the
non-template overloads for `std::string` and the four integer types build
the formatted message. Overload resolution picks the template (an exact
match) for `bool`, `float` and `std::vector<std::string>`, since the
non-template candidates would need a conversion. -/
class has_invalid_choice_error (T : Type) where
  invalid_choice_error : String → List T → T → String

instance : has_invalid_choice_error String :=
  ⟨invalid_choice_error_fmt id⟩

instance : has_invalid_choice_error Int :=
  ⟨invalid_choice_error_fmt toString⟩

instance : has_invalid_choice_error Nat :=
  ⟨invalid_choice_error_fmt toString⟩

instance : has_invalid_choice_error Bool :=
  ⟨fun _ _ _ => ""⟩

instance : has_invalid_choice_error float_model :=
  ⟨fun _ _ _ => ""⟩

instance : has_invalid_choice_error (List String) :=
  ⟨fun _ _ _ => ""⟩

/-- The setter `typed_option& value(T value, bool called_from_add_and_parse)`
for a plain `typed_option<T>` (whose `value_set_callback` is a no-op):
stores the value, then, if the choice set is non-empty and does not contain
the value, records `invalid_choice_error(value)` in `m_one_of_err`. The
`called_from_add_and_parse` flag is only handed to the (no-op) callback. -/
def typed_option.value_set {T : Type} [DecidableEq T] [has_invalid_choice_error T]
    (o : typed_option T) (v : T) (called_from_add_and_parse : Bool) : typed_option T :=
  let o1 : typed_option T := { o with m_value := some v }
  if 0 < o1.m_one_of.length ∧ v ∉ o1.m_one_of then
    { o1 with m_one_of_err := has_invalid_choice_error.invalid_choice_error o1.m_name o1.m_one_of v }
  else o1

/-- Embedding of `typed_option_with_location<T>`: the external variable
behind `m_location` is threaded explicitly through the operations, and the
flag records whether the pointer is non-null (the constructor takes a
reference, so it always is). -/
structure typed_option_with_location (T : Type) where
  to_typed_option : typed_option T
  m_location_nonnull : Bool

/-- The constructor `typed_option_with_location(const std::string& name,
T& location)`: builds the underlying `typed_option` and captures the
address of `location`, which is never null. -/
def typed_option_with_location.make (T : Type) (name : String) (type_hash : Nat) :
    typed_option_with_location T :=
  { to_typed_option := typed_option.make T name type_hash
    m_location_nonnull := true }

/-- `typed_option<T>::value` as executed on a `typed_option_with_location`:
the overridden `value_set_callback` writes the new value into the external
variable exactly when the location pointer is non-null and
`called_from_add_and_parse` is true; the option state evolves as in the base
class. Returns the new option paired with the new external-variable value. -/
def typed_option_with_location.value_set {T : Type} [DecidableEq T] [has_invalid_choice_error T]
    (o : typed_option_with_location T) (ext : T) (v : T) (called_from_add_and_parse : Bool) :
    typed_option_with_location T × T :=
  ({ o with to_typed_option := o.to_typed_option.value_set v called_from_add_and_parse },
    if o.m_location_nonnull && called_from_add_and_parse then v else ext)

/-- Runs a sequence of `value(v, flag)` calls on a located option, threading
the external variable. -/
def run_value_calls {T : Type} [DecidableEq T] [has_invalid_choice_error T] :
    typed_option_with_location T → T → List (T × Bool) → typed_option_with_location T × T
  | o, ext, [] => (o, ext)
  | o, ext, c :: rest =>
      let p := o.value_set ext c.1 c.2
      run_value_calls p.1 p.2 rest

/-- `operator==(const typed_option<T>&, const typed_option<T>&)`: conjunction
over `m_name`, `m_type_hash`, `m_help`, `m_short_name`, `m_keep`,
`default_value()` of both sides, and `m_necessary`, in that order with C++
`&&` short-circuiting — so `default_value()` (which can throw) is only
reached when the five leading fields all match. -/
def typed_option_eq {T : Type} [DecidableEq T] (lhs rhs : typed_option T) :
    Except option_error Bool :=
  if lhs.m_name = rhs.m_name ∧ lhs.m_type_hash = rhs.m_type_hash ∧
      lhs.m_help = rhs.m_help ∧ lhs.m_short_name = rhs.m_short_name ∧
      lhs.m_keep = rhs.m_keep then
    match lhs.default_value, rhs.default_value with
    | Except.ok a, Except.ok b =>
        Except.ok (decide (a = b) && decide (lhs.m_necessary = rhs.m_necessary))
    | Except.error e, _ => Except.error e
    | _, Except.error e => Except.error e
  else
    Except.ok false

/-! Helper lemmas shared by the claim theorems. -/

theorem value_set_m_value {T : Type} [DecidableEq T] [has_invalid_choice_error T]
    (o : typed_option T) (v : T) (b : Bool) :
    (o.value_set v b).m_value = some v := by
  simp only [typed_option.value_set]
  split <;> rfl

theorem value_set_m_name {T : Type} [DecidableEq T] [has_invalid_choice_error T]
    (o : typed_option T) (v : T) (b : Bool) :
    (o.value_set v b).m_name = o.m_name := by
  simp only [typed_option.value_set]
  split <;> rfl

theorem value_set_m_one_of {T : Type} [DecidableEq T] [has_invalid_choice_error T]
    (o : typed_option T) (v : T) (b : Bool) :
    (o.value_set v b).m_one_of = o.m_one_of := by
  simp only [typed_option.value_set]
  split <;> rfl

theorem value_set_err_of_mem {T : Type} [DecidableEq T] [has_invalid_choice_error T]
    (o : typed_option T) (v : T) (b : Bool) (hv : v ∈ o.m_one_of) :
    (o.value_set v b).m_one_of_err = o.m_one_of_err := by
  simp only [typed_option.value_set]
  split
  · next hcond => exact absurd hv hcond.2
  · rfl

theorem value_set_err_of_violation {T : Type} [DecidableEq T] [inst : has_invalid_choice_error T]
    (o : typed_option T) (v : T) (b : Bool) (hne : o.m_one_of ≠ []) (hnm : v ∉ o.m_one_of) :
    (o.value_set v b).m_one_of_err =
      has_invalid_choice_error.invalid_choice_error o.m_name o.m_one_of v := by
  simp only [typed_option.value_set]
  split
  · rfl
  · next hcond =>
    exact absurd ⟨List.length_pos.mpr hne, hnm⟩ hcond

theorem loc_value_set_ext {T : Type} [DecidableEq T] [has_invalid_choice_error T]
    (o : typed_option_with_location T) (ext v : T) (b : Bool) :
    (o.value_set ext v b).2 = if o.m_location_nonnull && b then v else ext := rfl

theorem loc_value_set_nonnull {T : Type} [DecidableEq T] [has_invalid_choice_error T]
    (o : typed_option_with_location T) (ext v : T) (b : Bool) :
    (o.value_set ext v b).1.m_location_nonnull = o.m_location_nonnull := rfl

theorem loc_value_set_base {T : Type} [DecidableEq T] [has_invalid_choice_error T]
    (o : typed_option_with_location T) (ext v : T) (b : Bool) :
    (o.value_set ext v b).1.to_typed_option = o.to_typed_option.value_set v b := rfl

theorem run_value_calls_ext_all_false {T : Type} [DecidableEq T] [has_invalid_choice_error T]
    (calls : List (T × Bool)) (o : typed_option_with_location T) (ext : T)
    (h : ∀ c ∈ calls, c.2 = false) :
    (run_value_calls o ext calls).2 = ext := by
  induction calls generalizing o ext with
  | nil => rfl
  | cons c rest ih =>
      have hc : c.2 = false := h c (List.mem_cons_self c rest)
      have hrest : ∀ d ∈ rest, d.2 = false := fun d hd => h d (List.mem_cons_of_mem c hd)
      simp only [run_value_calls]
      rw [show (o.value_set ext c.1 c.2).2 = ext by rw [loc_value_set_ext, hc]; simp]
      exact ih _ _ hrest

theorem run_value_calls_nonnull {T : Type} [DecidableEq T] [has_invalid_choice_error T]
    (calls : List (T × Bool)) (o : typed_option_with_location T) (ext : T) :
    (run_value_calls o ext calls).1.m_location_nonnull = o.m_location_nonnull := by
  induction calls generalizing o ext with
  | nil => rfl
  | cons c rest ih =>
      simp only [run_value_calls]
      rw [ih, loc_value_set_nonnull]

/-! The visitor mechanism. `typed_option_visitor` has one virtual member
`visit` per supported value type, each a no-op by default, and
`typed_option<T>::accept(visitor)` calls `visitor.visit(*this)`, which C++
overload resolution routes to the `visit` overload whose parameter type is
`typed_option<T>&`. The embedding names the eight overloads apart, indexes
options by the closed kind set, and lets each `visit` transform a state of
type `σ` (a C++ visitor member mutates the visitor object itself). -/

/-- The closed set of the eight supported value types, in the order the
`visit` overloads are declared. -/
inductive option_kind where
  | k_uint32
  | k_uint64
  | k_int64
  | k_int32
  | k_bool
  | k_float
  | k_string
  | k_string_list
deriving DecidableEq, Repr

/-- The Lean carrier for each supported value type: the unsigned types hold
naturals, the signed ones integers (no claim involves overflow, and the
option code never does arithmetic), `float` its opaque model. -/
def kind_type : option_kind → Type
  | option_kind.k_uint32 => Nat
  | option_kind.k_uint64 => Nat
  | option_kind.k_int64 => Int
  | option_kind.k_int32 => Int
  | option_kind.k_bool => Bool
  | option_kind.k_float => float_model
  | option_kind.k_string => String
  | option_kind.k_string_list => List String

/-- `typed_option_visitor`: one overridable operation per supported type,
each defaulting to the no-op body `{}` of the C++ virtual members. -/
structure typed_option_visitor (σ : Type) where
  visit_uint32 : typed_option Nat → σ → σ := fun _ s => s
  visit_uint64 : typed_option Nat → σ → σ := fun _ s => s
  visit_int64 : typed_option Int → σ → σ := fun _ s => s
  visit_int32 : typed_option Int → σ → σ := fun _ s => s
  visit_bool : typed_option Bool → σ → σ := fun _ s => s
  visit_float : typed_option float_model → σ → σ := fun _ s => s
  visit_string : typed_option String → σ → σ := fun _ s => s
  visit_string_list : typed_option (List String) → σ → σ := fun _ s => s

/-- `typed_option<T>::accept(typed_option_visitor& visitor)`, i.e.
`visitor.visit(*this)`: the one overload matching the option's own value
type runs, and nothing else. -/
def accept {σ : Type} :
    (k : option_kind) → typed_option (kind_type k) → typed_option_visitor σ → σ → σ
  | option_kind.k_uint32, o, vis, s => vis.visit_uint32 o s
  | option_kind.k_uint64, o, vis, s => vis.visit_uint64 o s
  | option_kind.k_int64, o, vis, s => vis.visit_int64 o s
  | option_kind.k_int32, o, vis, s => vis.visit_int32 o s
  | option_kind.k_bool, o, vis, s => vis.visit_bool o s
  | option_kind.k_float, o, vis, s => vis.visit_float o s
  | option_kind.k_string, o, vis, s => vis.visit_string o s
  | option_kind.k_string_list, o, vis, s => vis.visit_string_list o s

/-- An observer visitor that overrides every operation to bump a per-kind
invocation counter: with it, "which operations ran, and how often" is read
off the final state. -/
def counting_visitor : typed_option_visitor (option_kind → Nat) :=
  { visit_uint32 := fun _ s k => if k = option_kind.k_uint32 then s k + 1 else s k
    visit_uint64 := fun _ s k => if k = option_kind.k_uint64 then s k + 1 else s k
    visit_int64 := fun _ s k => if k = option_kind.k_int64 then s k + 1 else s k
    visit_int32 := fun _ s k => if k = option_kind.k_int32 then s k + 1 else s k
    visit_bool := fun _ s k => if k = option_kind.k_bool then s k + 1 else s k
    visit_float := fun _ s k => if k = option_kind.k_float then s k + 1 else s k
    visit_string := fun _ s k => if k = option_kind.k_string then s k + 1 else s k
    visit_string_list := fun _ s k => if k = option_kind.k_string_list then s k + 1 else s k }

/-! The claim theorems. -/

/-- C4: for every supported value type T and every value v of type T, after
calling `opt.value(v)` on a `typed_option<T>`, `opt.value_supplied()`
returns true and `opt.value()` returns v. -/
theorem c4_value_set_supplies_and_stores {T : Type} [DecidableEq T] [has_invalid_choice_error T]
    (o : typed_option T) (v : T) (b : Bool) :
    (o.value_set v b).value_supplied = true ∧ (o.value_set v b).value = Except.ok v := by
  constructor
  · rw [typed_option.value_supplied, value_set_m_value]
    rfl
  · rw [typed_option.value, value_set_m_value]

/-- C5: for every `typed_option<T>` with a non-empty allowed-choices set and
a value v outside the set, the assignment still stores v — afterwards
`value_supplied()` is true and `value()` returns v; the setter (a total
function in this embedding, mirroring that the C++ setter throws nothing)
raises no failure. -/
theorem c5_violating_value_still_stored {T : Type} [DecidableEq T] [has_invalid_choice_error T]
    (o : typed_option T) (v : T) (b : Bool)
    (hne : o.m_one_of ≠ []) (hnm : v ∉ o.m_one_of) :
    (o.value_set v b).value_supplied = true ∧ (o.value_set v b).value = Except.ok v := by
  constructor
  · rw [typed_option.value_supplied, value_set_m_value]
    rfl
  · rw [typed_option.value, value_set_m_value]

/-- Witness for C5 at T = string: option "color", choices {"blue", "red"},
assigned value "green". -/
theorem c5_violating_value_still_stored_witness :
    ((((typed_option.make String "color" 7).set_one_of ["blue", "red"]).value_set "green" false).value_supplied = true ∧
      (((typed_option.make String "color" 7).set_one_of ["blue", "red"]).value_set "green" false).value = Except.ok "green") :=
  c5_violating_value_still_stored ((typed_option.make String "color" 7).set_one_of ["blue", "red"])
    "green" false (by decide) (by decide)

/-- C7: a freshly constructed `typed_option<T>` has `value_supplied()` and
`default_value_supplied()` both false, and on it `value()` fails with the
missing-value failure and `default_value()` fails with the missing-default
failure — no sentinel value is returned. -/
theorem c7_fresh_option_empty (T : Type) (name : String) (type_hash : Nat) :
    (typed_option.make T name type_hash).value_supplied = false ∧
      (typed_option.make T name type_hash).default_value_supplied = false ∧
      (typed_option.make T name type_hash).value = Except.error option_error.missing_value ∧
      (typed_option.make T name type_hash).default_value = Except.error option_error.missing_default :=
  ⟨rfl, rfl, rfl, rfl⟩

/-- C10: a `value(v)` call with v a member of the current choice set leaves
`m_one_of_err` unchanged, and `set_one_of` with any new choice set leaves
`m_one_of_err` unchanged — in particular neither clears an error recorded
by an earlier violating assignment. -/
theorem c10_one_of_err_never_cleared {T : Type} [DecidableEq T] [has_invalid_choice_error T]
    (o : typed_option T) (e : String) (v : T) (b : Bool) (s : List T)
    (he : o.m_one_of_err = e) (hv : v ∈ o.m_one_of) :
    (o.value_set v b).m_one_of_err = e ∧ (o.set_one_of s).m_one_of_err = e := by
  constructor
  · rw [value_set_err_of_mem o v b hv, he]
  · rw [typed_option.set_one_of, he]

/-- Witness for C10 at T = string: an option whose error string was already
populated, reassigned the member value "blue" and given a fresh choice set. -/
theorem c10_one_of_err_never_cleared_witness :
    (({ typed_option.make String "color" 7 with
          m_one_of := ["blue", "red"], m_one_of_err := "previous error" }.value_set "blue" false).m_one_of_err
        = "previous error" ∧
      ({ typed_option.make String "color" 7 with
          m_one_of := ["blue", "red"], m_one_of_err := "previous error" }.set_one_of ["green"]).m_one_of_err
        = "previous error") :=
  c10_one_of_err_never_cleared
    { typed_option.make String "color" 7 with m_one_of := ["blue", "red"], m_one_of_err := "previous error" }
    "previous error" "blue" false ["green"] rfl (by decide)

/-- C8: for each of the eight supported value types, `accept` on a
`typed_option` of that kind invokes exactly the visitor operation for that
kind, exactly once, and no other operation (read off the per-kind counters
of `counting_visitor`); and the all-defaults visitor `{}` — every operation
left unimplemented — is a no-op on any state. -/
theorem c8_accept_dispatch {σ : Type} (k : option_kind) (o : typed_option (kind_type k))
    (c : option_kind → Nat) (s : σ) :
    accept k o counting_visitor c = (fun k2 => if k2 = k then c k2 + 1 else c k2) ∧
      accept k o ({} : typed_option_visitor σ) s = s := by
  cases k <;> exact ⟨rfl, rfl⟩

/-- C6: for a located option bound to external storage, `value(v,
from_initial_parse=true)` sets the external variable to v; a subsequent
`value(v2, from_initial_parse=false)` leaves the external variable at v
while the option's own `value()` returns v2. -/
theorem c6_located_first_parse_then_noop {T : Type} [DecidableEq T] [has_invalid_choice_error T]
    (o : typed_option_with_location T) (ext v v2 : T)
    (h : o.m_location_nonnull = true) :
    (o.value_set ext v true).2 = v ∧
      ((o.value_set ext v true).1.value_set (o.value_set ext v true).2 v2 false).2 = v ∧
      ((o.value_set ext v true).1.value_set (o.value_set ext v true).2 v2 false).1.to_typed_option.value
        = Except.ok v2 := by
  have h1 : (o.value_set ext v true).2 = v := by
    rw [loc_value_set_ext, h]
    rfl
  refine ⟨h1, ?_, ?_⟩
  · rw [loc_value_set_ext, Bool.and_false]
    exact h1
  · rw [loc_value_set_base, typed_option.value, value_set_m_value]

/-- Witness for C6 at T = uint64 (naturals): storage starts at 7, first
parse writes 1, a later programmatic call assigns 2. -/
theorem c6_located_first_parse_then_noop_witness :
    ((typed_option_with_location.make Nat "n" 3).value_set 7 1 true).2 = 1 ∧
      (((typed_option_with_location.make Nat "n" 3).value_set 7 1 true).1.value_set
          ((typed_option_with_location.make Nat "n" 3).value_set 7 1 true).2 2 false).2 = 1 ∧
      (((typed_option_with_location.make Nat "n" 3).value_set 7 1 true).1.value_set
          ((typed_option_with_location.make Nat "n" 3).value_set 7 1 true).2 2 false).1.to_typed_option.value
        = Except.ok 2 :=
  c6_located_first_parse_then_noop (typed_option_with_location.make Nat "n" 3) 7 1 2 rfl

/-- The formatted choice-error message decomposes around the option name. -/
theorem invalid_choice_error_fmt_has_name {T : Type} (render : T → String)
    (name : String) (one_of : List T) (v : T) :
    ∃ p q, invalid_choice_error_fmt render name one_of v = p ++ name ++ q := by
  refine ⟨"Error: '" ++ render v ++ "' is not a valid choice for option --",
    ". Please select from \x7b" ++ String.intercalate ", " (one_of.map render) ++ "\x7d", ?_⟩
  rw [invalid_choice_error_fmt]
  simp [String.append_assoc]

/-- The formatted choice-error message decomposes around the joined choice
set. -/
theorem invalid_choice_error_fmt_has_choices {T : Type} (render : T → String)
    (name : String) (one_of : List T) (v : T) :
    ∃ p q, invalid_choice_error_fmt render name one_of v
      = p ++ String.intercalate ", " (one_of.map render) ++ q := by
  refine ⟨"Error: '" ++ render v ++ "' is not a valid choice for option --" ++ name ++
    ". Please select from \x7b", "\x7d", ?_⟩
  rw [invalid_choice_error_fmt]

/-- The formatted choice-error message is never the empty string. -/
theorem invalid_choice_error_fmt_length_pos {T : Type} (render : T → String)
    (name : String) (one_of : List T) (v : T) :
    0 < (invalid_choice_error_fmt render name one_of v).length := by
  rw [invalid_choice_error_fmt]
  simp only [String.length_append]
  have h8 : "Error: '".length = 8 := by decide
  omega

/-- C1 counterexample: for T = bool the member-template overload of
`invalid_choice_error` is selected (it beats the integer overloads, which
would need a conversion) and returns the empty string, so a violating
assignment on a bool option with the non-empty choice set {true} leaves
`m_one_of_err` empty — the claim promises a non-empty message for every
supported type. -/
theorem c1_counterexample_bool_empty_message :
    ((typed_option.make Bool "flag" 0).set_one_of [true]).m_one_of ≠ [] ∧
      false ∉ ((typed_option.make Bool "flag" 0).set_one_of [true]).m_one_of ∧
      (((typed_option.make Bool "flag" 0).set_one_of [true]).value_set false false).m_one_of_err
        = "" := by
  exact ⟨by decide, by decide, by decide⟩

/-- C1 as amended: for the value types whose `invalid_choice_error` overload
formats a message — string and the four integer types, captured by the
hypothesis that the resolved overload is `invalid_choice_error_fmt render` —
assigning a value outside a non-empty choice set leaves `m_one_of_err`
non-empty, containing the option's name and the joined choice set. -/
theorem c1_violation_message_formatted {T : Type} [DecidableEq T]
    [inst : has_invalid_choice_error T] (render : T → String)
    (hfmt : inst.invalid_choice_error = invalid_choice_error_fmt render)
    (o : typed_option T) (v : T) (b : Bool)
    (hne : o.m_one_of ≠ []) (hnm : v ∉ o.m_one_of) :
    0 < (o.value_set v b).m_one_of_err.length ∧
      (∃ p q, (o.value_set v b).m_one_of_err = p ++ o.m_name ++ q) ∧
      (∃ p q, (o.value_set v b).m_one_of_err
        = p ++ String.intercalate ", " (o.m_one_of.map render) ++ q) := by
  have herr : (o.value_set v b).m_one_of_err
      = invalid_choice_error_fmt render o.m_name o.m_one_of v := by
    rw [value_set_err_of_violation o v b hne hnm, hfmt]
  rw [herr]
  exact ⟨invalid_choice_error_fmt_length_pos render o.m_name o.m_one_of v,
    invalid_choice_error_fmt_has_name render o.m_name o.m_one_of v,
    invalid_choice_error_fmt_has_choices render o.m_name o.m_one_of v⟩

/-- Witness for amended C1 at T = string (whose resolved overload is the
formatting one with elements rendered verbatim): option "color", choice set
{"blue", "red"}, assigned value "green". -/
theorem c1_violation_message_formatted_witness :
    0 < ((((typed_option.make String "color" 7).set_one_of ["blue", "red"]).value_set "green" false).m_one_of_err).length ∧
      (∃ p q, (((typed_option.make String "color" 7).set_one_of ["blue", "red"]).value_set "green" false).m_one_of_err
        = p ++ ((typed_option.make String "color" 7).set_one_of ["blue", "red"]).m_name ++ q) ∧
      (∃ p q, (((typed_option.make String "color" 7).set_one_of ["blue", "red"]).value_set "green" false).m_one_of_err
        = p ++ String.intercalate ", " ((((typed_option.make String "color" 7).set_one_of ["blue", "red"]).m_one_of).map id) ++ q) :=
  c1_violation_message_formatted id rfl
    ((typed_option.make String "color" 7).set_one_of ["blue", "red"]) "green" false
    (by decide) (by decide)

/-- C2 counterexample: on a located option, two `value` calls that both pass
`called_from_add_and_parse = true` both write the external variable — after
the sequence value(1, true); value(2, true) the external variable holds 2,
not the first-supplied 1, so it was written more than once. -/
theorem c2_counterexample_two_writes :
    (run_value_calls (typed_option_with_location.make Nat "n" 3) 0 [(1, true), (2, true)]).2 = 2 ∧
      (run_value_calls (typed_option_with_location.make Nat "n" 3) 0 [(1, true), (2, true)]).2 ≠ 1 := by
  exact ⟨by decide, by decide⟩

/-- C2 as amended: the write-back is gated by the `called_from_add_and_parse`
flag, not by first-ness — over any call sequence in which exactly one call
passes the flag as true, the external variable ends at that call's value,
and a sequence of flag-false calls alone never touches it. -/
theorem c2_located_write_flag_gated {T : Type} [DecidableEq T] [has_invalid_choice_error T]
    (o : typed_option_with_location T) (ext v : T) (calls1 calls2 : List (T × Bool))
    (h : o.m_location_nonnull = true)
    (h1 : ∀ c ∈ calls1, c.2 = false) (h2 : ∀ c ∈ calls2, c.2 = false) :
    (run_value_calls o ext (calls1 ++ (v, true) :: calls2)).2 = v ∧
      (run_value_calls o ext calls1).2 = ext := by
  refine ⟨?_, run_value_calls_ext_all_false calls1 o ext h1⟩
  induction calls1 generalizing o ext with
  | nil =>
      simp only [List.nil_append, run_value_calls]
      rw [run_value_calls_ext_all_false calls2 _ _ h2, loc_value_set_ext, h]
      rfl
  | cons c rest ih =>
      simp only [List.cons_append, run_value_calls]
      exact ih (o.value_set ext c.1 c.2).1 (o.value_set ext c.1 c.2).2
        (by rw [loc_value_set_nonnull]; exact h)
        (fun d hd => h1 d (List.mem_cons_of_mem c hd))

/-- Witness for amended C2 at T = uint64 (naturals): the sequence
value(5, false); value(9, true); value(3, false) starting with external
storage 7 leaves the storage at 9, and the flag-false prefix alone leaves
it at 7. -/
theorem c2_located_write_flag_gated_witness :
    (run_value_calls (typed_option_with_location.make Nat "n" 3) 7 ([(5, false)] ++ (9, true) :: [(3, false)])).2 = 9 ∧
      (run_value_calls (typed_option_with_location.make Nat "n" 3) 7 [(5, false)]).2 = 7 :=
  c2_located_write_flag_gated (typed_option_with_location.make Nat "n" 3) 7 9
    [(5, false)] [(3, false)] rfl (by decide) (by decide)

/-- C3: with a default value supplied on both sides (the regime the claim
describes — `operator==` reads `default_value()`), two `typed_option<T>`
instances compare equal exactly when `name`, `type_tag`, `help`,
`short_name`, `keep`, `default_value` and `necessary` all match, regardless
of the stored value, the choice set or the choice-error string; and when
any listed field differs the comparison returns false. -/
theorem c3_eq_structural {T : Type} [DecidableEq T] (lhs rhs : typed_option T)
    (hl : lhs.m_default_value.isSome = true) (hr : rhs.m_default_value.isSome = true) :
    (typed_option_eq lhs rhs = Except.ok true ↔
      (lhs.m_name = rhs.m_name ∧ lhs.m_type_hash = rhs.m_type_hash ∧
        lhs.m_help = rhs.m_help ∧ lhs.m_short_name = rhs.m_short_name ∧
        lhs.m_keep = rhs.m_keep ∧ lhs.m_default_value = rhs.m_default_value ∧
        lhs.m_necessary = rhs.m_necessary)) ∧
    (typed_option_eq lhs rhs = Except.ok false ↔
      ¬(lhs.m_name = rhs.m_name ∧ lhs.m_type_hash = rhs.m_type_hash ∧
        lhs.m_help = rhs.m_help ∧ lhs.m_short_name = rhs.m_short_name ∧
        lhs.m_keep = rhs.m_keep ∧ lhs.m_default_value = rhs.m_default_value ∧
        lhs.m_necessary = rhs.m_necessary)) := by
  obtain ⟨a, ha⟩ := Option.isSome_iff_exists.mp hl
  obtain ⟨b2, hb⟩ := Option.isSome_iff_exists.mp hr
  unfold typed_option_eq
  simp only [typed_option.default_value, ha, hb]
  split
  · next h5 =>
      simp [h5.1, h5.2.1, h5.2.2.1, h5.2.2.2.1, h5.2.2.2.2]
  · next h5 =>
      have hnc : ¬(lhs.m_name = rhs.m_name ∧ lhs.m_type_hash = rhs.m_type_hash ∧
          lhs.m_help = rhs.m_help ∧ lhs.m_short_name = rhs.m_short_name ∧
          lhs.m_keep = rhs.m_keep ∧ some a = some b2 ∧
          lhs.m_necessary = rhs.m_necessary) := fun hc =>
        h5 ⟨hc.1, hc.2.1, hc.2.2.1, hc.2.2.2.1, hc.2.2.2.2.1⟩
      simp [hnc]
      intro h1 h2 h3 h4 hk _ _
      exact h5 ⟨h1, h2, h3, h4, hk⟩

/-- Witness for C3 at T = string: two options agreeing on all seven listed
fields (same default "32") but differing in stored value and choice set
compare equal. -/
theorem c3_eq_structural_witness :
    typed_option_eq
      { typed_option.make String "batch" 5 with
          m_default_value := some "32", m_value := some "100", m_one_of := ["16", "32"] }
      { typed_option.make String "batch" 5 with m_default_value := some "32" }
      = Except.ok true :=
  (c3_eq_structural
    { typed_option.make String "batch" 5 with
        m_default_value := some "32", m_value := some "100", m_one_of := ["16", "32"] }
    { typed_option.make String "batch" 5 with m_default_value := some "32" }
    rfl rfl).1.mpr ⟨rfl, rfl, rfl, rfl, rfl, rfl, rfl⟩

/-- C9 counterexample: two fresh same-typed options, neither of which ever
had a default value set, whose names differ — `operator==` returns false
(the `&&` chain short-circuits before `default_value()` is reached) instead
of raising the missing-default failure the claim predicts whenever a
default is missing. -/
theorem c9_counterexample_short_circuit :
    (typed_option.make String "alpha" 0).default_value_supplied = false ∧
      (typed_option.make String "beta" 0).default_value_supplied = false ∧
      typed_option_eq (typed_option.make String "alpha" 0) (typed_option.make String "beta" 0)
        = Except.ok false := by
  refine ⟨rfl, rfl, ?_⟩
  rfl

/-- C9 as amended: `operator==` reads `default_value()` only once the `&&`
chain reaches it — when `name`, `type_tag`, `help`, `short_name` and `keep`
all match; in that regime a missing default on either operand makes the
comparison raise the missing-default failure instead of returning a
boolean. -/
theorem c9_eq_missing_default {T : Type} [DecidableEq T] (lhs rhs : typed_option T)
    (h5 : lhs.m_name = rhs.m_name ∧ lhs.m_type_hash = rhs.m_type_hash ∧
      lhs.m_help = rhs.m_help ∧ lhs.m_short_name = rhs.m_short_name ∧
      lhs.m_keep = rhs.m_keep)
    (hmiss : lhs.m_default_value = none ∨ rhs.m_default_value = none) :
    typed_option_eq lhs rhs = Except.error option_error.missing_default := by
  unfold typed_option_eq
  rw [if_pos h5]
  rcases hmiss with hm | hm
  · simp [typed_option.default_value, hm]
  · cases hx : lhs.m_default_value <;> simp [typed_option.default_value, hm, hx]

/-- Witness for amended C9 at T = string: two identically named fresh
options with no default on either side — comparison raises the
missing-default failure. -/
theorem c9_eq_missing_default_witness :
    typed_option_eq (typed_option.make String "alpha" 0) (typed_option.make String "alpha" 0)
      = Except.error option_error.missing_default :=
  c9_eq_missing_default (typed_option.make String "alpha" 0) (typed_option.make String "alpha" 0)
    ⟨rfl, rfl, rfl, rfl, rfl⟩ (Or.inl rfl)
